import Mathlib

/-!
Shallow embedding of the Pixel GPU DVFS subsystem
(drivers/gpu/arm/mali, platform/pixel integration).

Sources embedded here:
  * pixel_gpu_dvfs.c          — level commit, level-lock reconciliation,
                                power on/off DVFS hooks, clockdown worker,
                                control worker, init.
  * pixel_gpu_dvfs_metrics.c  — time-in-state ledger, per-UID stats,
                                job start/end accounting, kctx lifecycle.
  * pixel_gpu_sysfs.c         — scaling_max_freq / scaling_min_freq stores,
                                get_level_from_clock.
  * gpu_dvfs_qos_set / gpu_dvfs_qos_reset (QOS vote bundle handling).
  * gpu_tmu_notifier (thermal ceiling updates).

Machine integers: level indices are C `int`s that are always non-negative in
the paths modelled, embedded as `Nat` (the one field that is genuinely
sign-carrying, `qos.level_last`, is an `Int` because the driver stores `-1`
there).  Timestamps are `u64` nanosecond counts from a monotone clock,
embedded as `Nat`; elapsed-time subtraction never underflows on the monotone
traces considered.  Counters `active_kctx_count` and `atoms_in_flight` are C
`int`s embedded as `Int`.

Side effects that leave the subsystem (exynos_pm_qos_update_request,
cal_dfs_set_rate, queue_delayed_work, cancel_delayed_work, dev_warn logging)
are recorded both as state fields (current QOS request values, pending
clockdown deadline) and as an event trace, so ordering claims can be stated.
-/

/-- One `struct gpu_dvfs_opp_metrics` block: cumulative time, entry count and
last-entry timestamp. -/
structure GpuDvfsOppMetrics where
  time_total : Nat
  entry_count : Nat
  time_last_entry : Nat
deriving DecidableEq, Repr

/-- The zero-initialised metrics block (kzalloc). -/
def oppMetrics0 : GpuDvfsOppMetrics := { time_total := 0, entry_count := 0, time_last_entry := 0 }

/-- The QOS vote bundle of one operating point (`gpu_dvfs_opp.qos`), and also
the shape of the currently outstanding exynos_pm_qos request values. -/
structure GpuDvfsQosVals where
  int_min : Nat
  mif_min : Nat
  cpu0_min : Nat
  cpu1_min : Nat
  cpu2_max : Nat
deriving DecidableEq, Repr

/-- Kernel constant PM_QOS_CLUSTER2_FREQ_MAX_DEFAULT_VALUE (the "no limit"
value for the big-cluster max request; the exact numeral is irrelevant to the
claims, only that reset restores it). -/
def PM_QOS_CLUSTER2_FREQ_MAX_DEFAULT_VALUE : Nat := 2147483647

/-- The request values after `gpu_dvfs_qos_reset`: all minimum votes dropped
to 0 and the cluster-2 maximum restored to its default. -/
def qosVotesReleased : GpuDvfsQosVals :=
  { int_min := 0, mif_min := 0, cpu0_min := 0, cpu1_min := 0,
    cpu2_max := PM_QOS_CLUSTER2_FREQ_MAX_DEFAULT_VALUE }

/-- One row of the DVFS table (`struct gpu_dvfs_opp`). -/
structure GpuDvfsOpp where
  clk0 : Nat
  clk1 : Nat
  vol0 : Nat
  vol1 : Nat
  util_min : Nat
  util_max : Nat
  hysteresis : Nat
  qos : GpuDvfsQosVals
  metrics : GpuDvfsOppMetrics
deriving DecidableEq, Repr

/-- Default row used only as the `List.getD` fallback; all accesses in the
modelled paths are in range. -/
def opp0 : GpuDvfsOpp :=
  { clk0 := 0, clk1 := 0, vol0 := 0, vol1 := 0, util_min := 0, util_max := 0,
    hysteresis := 0,
    qos := { int_min := 0, mif_min := 0, cpu0_min := 0, cpu1_min := 0, cpu2_max := 0 },
    metrics := oppMetrics0 }

/-- Externally visible actions of the subsystem, in program order. -/
inductive GpuEv where
  /-- The five exynos_pm_qos_update_request calls of `gpu_dvfs_qos_set`
  issuing the vote bundle of `level`. -/
  | qosApply (level : Nat)
  /-- The five exynos_pm_qos_update_request calls of `gpu_dvfs_qos_reset`. -/
  | qosRelease
  /-- `cal_dfs_set_rate(dom, clk)` programming one clock domain. -/
  | calSetRate (dom : Nat) (clk : Nat)
  /-- A warning-severity log line. -/
  | logWarn
  /-- `queue_delayed_work(clockdown_wq, clockdown_work, delay)`. -/
  | queueClockdown (delay : Nat)
  /-- `cancel_delayed_work(clockdown_work)`. -/
  | cancelClockdown
deriving DecidableEq, Repr

/-- The DVFS slice of `struct pixel_context` (all fields guarded by the DVFS
lock in the driver), together with the scheduler-visible facts the claims
need: the current PM power status and the pending clockdown deadline. -/
structure PState where
  table : List GpuDvfsOpp
  table_size : Nat
  level : Nat
  level_start : Nat
  level_target : Nat
  level_max : Nat
  level_min : Nat
  level_scaling_max : Nat
  level_scaling_min : Nat
  /-- Thermal ceiling; `tmu.level_limit` in pixel_gpu_dvfs.c, `level_tmu_max`
  in the TMU notifier file. -/
  level_tmu_max : Nat
  util : Nat
  governor_delay : Nat
  metrics_last_time : Nat
  metrics_last_power_state : Bool
  metrics_last_level : Nat
  power_on_metrics : GpuDvfsOppMetrics
  power_off_metrics : GpuDvfsOppMetrics
  qos_level_last : Int
  qos_enabled : Bool
  /-- Currently outstanding exynos_pm_qos request values. -/
  qos_votes : GpuDvfsQosVals
  clockdown_hysteresis : Nat
  /-- Deadline of the armed clockdown delayed work, if armed. -/
  clockdown_pending : Option Nat
  /-- `gpu_power_status(kbdev)`. -/
  power_status : Bool
deriving DecidableEq, Repr

/-- `struct gpu_dvfs_metrics_uid_stats` for one UID. -/
structure GpuDvfsUidStats where
  uid : Nat
  active_kctx_count : Int
  atoms_in_flight : Int
  period_start : Nat
  tis_stats : List GpuDvfsOppMetrics
deriving DecidableEq, Repr

/-- The per-UID side of the metrics state: the sorted UID stats list and the
per-job-slot links `js_uid_stats` (a slot holds the UID whose atom currently
occupies it, mirroring the stats pointer in the driver). -/
structure UidTrackState where
  uid_stats_list : List GpuDvfsUidStats
  js_uid_stats : List (Option Nat)
deriving DecidableEq, Repr

/-- Apply `f` to the stats block of `uidv` (pointer update in the driver;
UIDs are unique in the list, see the kctx_init claims). -/
def updateUid (l : List GpuDvfsUidStats) (uidv : Nat)
    (f : GpuDvfsUidStats → GpuDvfsUidStats) : List GpuDvfsUidStats :=
  l.map (fun st => if st.uid = uidv then f st else st)

/-- Modify the metrics block of table row `i` in place. -/
def tableModifyMetrics (t : List GpuDvfsOpp) (i : Nat)
    (f : GpuDvfsOppMetrics → GpuDvfsOppMetrics) : List GpuDvfsOpp :=
  t.set i (let o := t.getD i opp0; { o with metrics := f o.metrics })

/-- Body of the `js_uid_stats` loop of `gpu_dvfs_metrics_uid_level_change`:
split the running busy period of one UID at `event_time`, charging the
elapsed part to the (still current) `level`. -/
def uidStatsLevelChange (st : GpuDvfsUidStats) (level : Nat) (event_time : Nat) :
    GpuDvfsUidStats :=
  if st.period_start ≠ event_time then
    { st with
      tis_stats := st.tis_stats.set level
        (let m := st.tis_stats.getD level oppMetrics0
         { m with time_total := m.time_total + (event_time - st.period_start) }),
      period_start := event_time }
  else st

/-- `gpu_dvfs_metrics_uid_level_change`: for every job slot with an attached
stats block, split that UID's busy period at `event_time`. -/
def gpu_dvfs_metrics_uid_level_change (u : UidTrackState) (level : Nat)
    (event_time : Nat) : UidTrackState :=
  { u with
    uid_stats_list := u.js_uid_stats.foldl
      (fun acc slot =>
        match slot with
        | none => acc
        | some uidv => updateUid acc uidv (fun st => uidStatsLevelChange st level event_time))
      u.uid_stats_list }

/-- `gpu_dvfs_metrics_update(kbdev, next_level, power_state)` with the
`ktime_get_ns()` read passed in as `now`. -/
def gpu_dvfs_metrics_update (s : PState) (u : UidTrackState) (next_level : Nat)
    (power_state : Bool) (now : Nat) : PState × UidTrackState :=
  let level := s.level
  let prev := s.metrics_last_time
  let curr := now
  let su : PState × UidTrackState :=
    if s.metrics_last_power_state then
      let su1 : PState × UidTrackState :=
        if power_state then
          if level ≠ next_level then
            ({ s with table := (tableModifyMetrics s.table next_level
                 (fun m => { m with entry_count := m.entry_count + 1, time_last_entry := curr })) },
             gpu_dvfs_metrics_uid_level_change u level curr)
          else (s, u)
        else
          ({ s with power_off_metrics :=
               { s.power_off_metrics with
                 entry_count := s.power_off_metrics.entry_count + 1,
                 time_last_entry := curr } }, u)
      let s1 := su1.1
      ({ s1 with
         table := (tableModifyMetrics s1.table level
           (fun m => { m with time_total := m.time_total + (curr - prev) })),
         power_on_metrics :=
           { s1.power_on_metrics with
             time_total := s1.power_on_metrics.time_total + (curr - prev) } },
       su1.2)
    else
      let s1 :=
        if power_state then
          let s2 := { s with power_on_metrics :=
            { s.power_on_metrics with
              entry_count := s.power_on_metrics.entry_count + 1,
              time_last_entry := curr } }
          if s.metrics_last_level ≠ next_level then
            { s2 with table := (tableModifyMetrics s2.table next_level
                (fun m => { m with entry_count := m.entry_count + 1, time_last_entry := curr })) }
          else s2
        else s
      ({ s1 with power_off_metrics :=
           { s1.power_off_metrics with
             time_total := s1.power_off_metrics.time_total + (curr - prev) } }, u)
  ({ su.1 with
     metrics_last_power_state := power_state,
     metrics_last_time := curr,
     metrics_last_level := next_level }, su.2)

/-- `gpu_dvfs_qos_set(kbdev, level)`: issue the vote bundle of `level` unless
it is already the last-applied one. -/
def gpu_dvfs_qos_set (s : PState) (level : Nat) : PState × List GpuEv :=
  if s.qos_level_last ≠ (level : Int) then
    let opp := s.table.getD level opp0
    ({ s with qos_votes := opp.qos, qos_level_last := (level : Int), qos_enabled := true },
     [GpuEv.qosApply level])
  else (s, [])

/-- `gpu_dvfs_qos_reset(kbdev)`: unconditionally drop all outstanding votes. -/
def gpu_dvfs_qos_reset (s : PState) : PState × List GpuEv :=
  ({ s with qos_votes := qosVotesReleased, qos_level_last := -1, qos_enabled := false },
   [GpuEv.qosRelease])

/-- `gpu_dvfs_set_new_level(kbdev, next_level)`.  Note the source updates
`pc->dvfs.level` to `next_level` *before* evaluating the clocking-down guard
`next_level > pc->dvfs.level`; the embedding reproduces that order exactly. -/
def gpu_dvfs_set_new_level (s : PState) (u : UidTrackState) (next_level : Nat)
    (now : Nat) : PState × UidTrackState × List GpuEv :=
  let up : PState × List GpuEv :=
    if next_level < s.level then gpu_dvfs_qos_set s next_level else (s, [])
  let mu := gpu_dvfs_metrics_update up.1 u next_level true now
  let s2 := mu.1
  let rateEvs : List GpuEv :=
    [GpuEv.calSetRate 0 ((s2.table.getD next_level opp0).clk0),
     GpuEv.calSetRate 1 ((s2.table.getD next_level opp0).clk1)]
  let s3 := { s2 with level := next_level }
  let down : PState × List GpuEv :=
    if next_level > s3.level then gpu_dvfs_qos_set s3 next_level else (s3, [])
  (down.1, mu.2, up.2 ++ rateEvs ++ down.2)

/-- `gpu_dvfs_update_level_locks(kbdev)`: self-heal inconsistent scaling
bounds, then ratchet `level_target` off the current level, with the TMU
ceiling applied last. -/
def gpu_dvfs_update_level_locks (s : PState) : PState × List GpuEv :=
  let hw : PState × List GpuEv :=
    if s.level_scaling_min < s.level_scaling_max then
      ({ s with level_scaling_max := 0, level_scaling_min := s.table_size - 1 },
       [GpuEv.logWarn])
    else (s, [])
  let s1 := hw.1
  let s2 :=
    if s1.level < s1.level_scaling_max then { s1 with level_target := s1.level_scaling_max }
    else if s1.level_scaling_min < s1.level then { s1 with level_target := s1.level_scaling_min }
    else s1
  let s3 := if s2.level < s2.level_tmu_max then { s2 with level_target := s2.level_tmu_max } else s2
  (s3, hw.2)

/-- `gpu_dvfs_event_power_on`: refresh metrics at the unchanged level, cancel
any pending clockdown work. -/
def gpu_dvfs_event_power_on (s : PState) (u : UidTrackState) (now : Nat) :
    PState × UidTrackState × List GpuEv :=
  let mu := gpu_dvfs_metrics_update s u s.level true now
  ({ mu.1 with clockdown_pending := none }, mu.2, [GpuEv.cancelClockdown])

/-- `gpu_dvfs_event_power_off`: refresh metrics, arm the clockdown delayed
work with delay `clockdown_hysteresis`. -/
def gpu_dvfs_event_power_off (s : PState) (u : UidTrackState) (now : Nat) :
    PState × UidTrackState × List GpuEv :=
  let mu := gpu_dvfs_metrics_update s u s.level false now
  ({ mu.1 with clockdown_pending := some (now + s.clockdown_hysteresis) }, mu.2,
   [GpuEv.queueClockdown s.clockdown_hysteresis])

/-- `gpu_dvfs_clockdown_worker`: force the target down to the scaling floor
and release all outstanding QOS votes. -/
def gpu_dvfs_clockdown_worker (s : PState) : PState × List GpuEv :=
  let s1 := { s with level_target := s.level_scaling_min, clockdown_pending := none }
  gpu_dvfs_qos_reset s1

/-- Modelled from the spec: the basic governor's evaluate function
(`gpu_dvfs_governor_get_next_level` in pixel_gpu_dvfs_governor.c, which is
not under src/).  Spec 4.2: above `util_max` recommend one level more
performant (clamped at 0); below `util_min` for the level's hysteresis count
of consecutive evaluations recommend one level less performant (clamped at
N-1); otherwise hold.  Only reachability plumbing depends on this; no claim
is decided by it. -/
def gpu_dvfs_governor_get_next_level (s : PState) (util : Nat) : PState × Nat :=
  let opp := s.table.getD s.level opp0
  if opp.util_max < util then
    ({ s with governor_delay := 0 }, s.level - 1)
  else if util < opp.util_min then
    if opp.hysteresis ≤ s.governor_delay + 1 then
      ({ s with governor_delay := 0 }, min (s.level + 1) (s.table_size - 1))
    else
      ({ s with governor_delay := s.governor_delay + 1 }, s.level)
  else ({ s with governor_delay := 0 }, s.level)

/-- `gpu_dvfs_control_worker`: if powered on, run the governor, re-issue QOS
votes dropped by an idle reset, and commit a level change if needed. -/
def gpu_dvfs_control_worker (s : PState) (u : UidTrackState) (now : Nat) :
    PState × UidTrackState × List GpuEv :=
  if s.power_status then
    let g := gpu_dvfs_governor_get_next_level s s.util
    let s1 := { g.1 with level_target := g.2 }
    let q : PState × List GpuEv :=
      if s1.level_target = s1.level ∧ s1.qos_enabled = false then
        gpu_dvfs_qos_set s1 s1.level_target
      else (s1, [])
    if q.1.level_target ≠ q.1.level then
      let r := gpu_dvfs_set_new_level q.1 u q.1.level_target now
      (r.1, r.2.1, q.2 ++ r.2.2)
    else (q.1, u, q.2)
  else (s, u, [])

/-- `get_level_from_clock(kbdev, clock)`: index of the first table row whose
top-level clock equals `clock`, `-1` if none. -/
def get_level_from_clock (s : PState) (clock : Nat) : Int :=
  match s.table.findIdx? (fun o => o.clk0 == clock) with
  | some i => (i : Int)
  | none => -1

/-- `scaling_max_freq_store`: validate the clock, then set the scaling
ceiling, push the floor below it if needed, and reconcile.  The error case
performs no state write at all. -/
def scaling_max_freq_store (s : PState) (clock : Nat) : PState × Except Int Unit :=
  match s.table.findIdx? (fun o => o.clk0 == clock) with
  | none => (s, Except.error (-22))
  | some level =>
    let s1 := { s with
      level_scaling_max := level,
      level_scaling_min := max level s.level_scaling_min }
    ((gpu_dvfs_update_level_locks s1).1, Except.ok ())

/-- `scaling_min_freq_store`: dual of `scaling_max_freq_store`. -/
def scaling_min_freq_store (s : PState) (clock : Nat) : PState × Except Int Unit :=
  match s.table.findIdx? (fun o => o.clk0 == clock) with
  | none => (s, Except.error (-22))
  | some level =>
    let s1 := { s with
      level_scaling_min := level,
      level_scaling_max := min level s.level_scaling_max }
    ((gpu_dvfs_update_level_locks s1).1, Except.ok ())

/-- Kernel notifier return values. -/
def NOTIFY_OK : Int := 1

/-- Kernel notifier veto value (0x8000 | 2). -/
def NOTIFY_BAD : Int := 32770

/-- TMU events delivered to `gpu_tmu_notifier`. -/
inductive TmuEvent where
  | gpu_cold
  | gpu_normal
  | gpu_throttling (data : Int)
deriving DecidableEq, Repr

/-- `gpu_tmu_notifier`: update the thermal ceiling and reconcile; an invalid
throttling payload is vetoed with NOTIFY_BAD and changes nothing. -/
def gpu_tmu_notifier (s : PState) (ev : TmuEvent) : PState × Int :=
  match ev with
  | TmuEvent.gpu_cold =>
    (((gpu_dvfs_update_level_locks { s with level_tmu_max := s.level_max }).1), NOTIFY_OK)
  | TmuEvent.gpu_normal =>
    (((gpu_dvfs_update_level_locks { s with level_tmu_max := s.level_max }).1), NOTIFY_OK)
  | TmuEvent.gpu_throttling data =>
    if 0 ≤ data ∧ data < (s.table_size : Int) then
      (((gpu_dvfs_update_level_locks { s with level_tmu_max := data.toNat }).1), NOTIFY_OK)
    else (s, NOTIFY_BAD)

/-- `gpu_dvfs_metrics_job_start` acting on one UID's stats block. -/
def uidStatsJobStart (st : GpuDvfsUidStats) (now : Nat) : GpuDvfsUidStats :=
  let st1 := if st.atoms_in_flight = 0 then { st with period_start := now } else st
  { st1 with atoms_in_flight := st1.atoms_in_flight + 1 }

/-- `gpu_dvfs_metrics_job_end` acting on one UID's stats block, at the
current DVFS `level`. -/
def uidStatsJobEnd (st : GpuDvfsUidStats) (level : Nat) (now : Nat) : GpuDvfsUidStats :=
  let st1 := { st with atoms_in_flight := st.atoms_in_flight - 1 }
  let st2 := { st1 with
    tis_stats := st1.tis_stats.set level
      (let m := st1.tis_stats.getD level oppMetrics0
       { m with time_total := m.time_total + (now - st1.period_start) }) }
  if st2.atoms_in_flight = 0 then { st2 with period_start := 0 }
  else { st2 with period_start := now }

/-- `gpu_dvfs_metrics_job_start(atom)`: update the UID stats and link the
slot to them. -/
def gpu_dvfs_metrics_job_start (u : UidTrackState) (uidv slot now : Nat) : UidTrackState :=
  { uid_stats_list := updateUid u.uid_stats_list uidv (fun st => uidStatsJobStart st now),
    js_uid_stats := u.js_uid_stats.set slot (some uidv) }

/-- `gpu_dvfs_metrics_job_end(atom)`: charge the elapsed busy time at the
current level, decrement the in-flight count, clear or restart the period
marker, unlink the slot. -/
def gpu_dvfs_metrics_job_end (u : UidTrackState) (level uidv slot now : Nat) : UidTrackState :=
  { uid_stats_list := updateUid u.uid_stats_list uidv (fun st => uidStatsJobEnd st level now),
    js_uid_stats := u.js_uid_stats.set slot none }

/-- A freshly kzalloc-ed stats block for `uidv` (tis_stats sized to the
table), already holding the `active_kctx_count++` performed after the list
walk of `gpu_dvfs_kctx_init`. -/
def newUidStats (table_size uidv : Nat) : GpuDvfsUidStats :=
  { uid := uidv, active_kctx_count := 1, atoms_in_flight := 0, period_start := 0,
    tis_stats := List.replicate table_size oppMetrics0 }

/-- The list walk of `gpu_dvfs_kctx_init`: reuse the block of an already-seen
UID (bumping its context count), insert a fresh block before the first entry
with a larger UID, or append at the end. -/
def gpu_dvfs_kctx_list_insert (table_size uidv : Nat) :
    List GpuDvfsUidStats → List GpuDvfsUidStats
  | [] => [newUidStats table_size uidv]
  | e :: rest =>
    if e.uid = uidv then
      { e with active_kctx_count := e.active_kctx_count + 1 } :: rest
    else if uidv < e.uid then
      newUidStats table_size uidv :: e :: rest
    else
      e :: gpu_dvfs_kctx_list_insert table_size uidv rest

/-- `gpu_dvfs_kctx_term`: only the context count drops; the block stays. -/
def gpu_dvfs_kctx_term (u : UidTrackState) (uidv : Nat) : UidTrackState :=
  { u with uid_stats_list := (updateUid u.uid_stats_list uidv
      (fun st => { st with active_kctx_count := st.active_kctx_count - 1 })) }

/-- State after `gpu_dvfs_init` followed by `gpu_dvfs_metrics_init` and
`gpu_dvfs_qos_init`, for a table read from DT, the boot level found by
`gpu_dvfs_get_initial_level`, the DT clockdown hysteresis, the init-time
clock reading `now0` and PM status `power0`. -/
def gpu_dvfs_init_state (table : List GpuDvfsOpp) (boot_level hyst now0 : Nat)
    (power0 : Bool) : PState :=
  { table := tableModifyMetrics table boot_level
      (fun m => { m with entry_count := m.entry_count + 1, time_last_entry := now0 }),
    table_size := table.length,
    level := boot_level,
    level_start := boot_level,
    level_target := boot_level,
    level_max := 0,
    level_min := table.length - 1,
    level_scaling_max := 0,
    level_scaling_min := table.length - 1,
    level_tmu_max := 0,
    util := 0,
    governor_delay := 0,
    metrics_last_time := now0,
    metrics_last_power_state := power0,
    metrics_last_level := 0,
    power_on_metrics := oppMetrics0,
    power_off_metrics := oppMetrics0,
    qos_level_last := -1,
    qos_enabled := false,
    qos_votes := qosVotesReleased,
    clockdown_hysteresis := hyst,
    clockdown_pending := none,
    power_status := power0 }

/-- Combined DVFS-subsystem state: the pixel context slice plus the per-UID
metrics side. -/
def GpuSys := PState × UidTrackState

/-- One externally triggered transition of the DVFS subsystem.  The power
steps combine the PM core's status flip with the DVFS event hook it calls;
everything else is a direct entry point of the embedded code. -/
inductive GpuStep : GpuSys → GpuSys → Prop where
  /-- `kbase_platform_dvfs_event`: atomic store of the utilization sample. -/
  | util_report (s : PState) (u : UidTrackState) (v : Nat) :
      GpuStep (s, u) ({ s with util := v }, u)
  /-- The queued `gpu_dvfs_control_worker` runs. -/
  | worker (s : PState) (u : UidTrackState) (now : Nat) :
      GpuStep (s, u)
        ((gpu_dvfs_control_worker s u now).1, (gpu_dvfs_control_worker s u now).2.1)
  /-- OFF→ON power transition with its DVFS hook. -/
  | power_on (s : PState) (u : UidTrackState) (now : Nat) :
      s.power_status = false →
      GpuStep (s, u)
        ({ (gpu_dvfs_event_power_on s u now).1 with power_status := true },
         (gpu_dvfs_event_power_on s u now).2.1)
  /-- ON→OFF power transition with its DVFS hook. -/
  | power_off (s : PState) (u : UidTrackState) (now : Nat) :
      s.power_status = true →
      GpuStep (s, u)
        ({ (gpu_dvfs_event_power_off s u now).1 with power_status := false },
         (gpu_dvfs_event_power_off s u now).2.1)
  /-- The armed clockdown delayed work fires. -/
  | clockdown_fire (s : PState) (u : UidTrackState) :
      s.clockdown_pending.isSome = true →
      GpuStep (s, u) ((gpu_dvfs_clockdown_worker s).1, u)
  /-- A sysfs write to scaling_max_freq. -/
  | scaling_max_write (s : PState) (u : UidTrackState) (clock : Nat) :
      GpuStep (s, u) ((scaling_max_freq_store s clock).1, u)
  /-- A sysfs write to scaling_min_freq. -/
  | scaling_min_write (s : PState) (u : UidTrackState) (clock : Nat) :
      GpuStep (s, u) ((scaling_min_freq_store s clock).1, u)
  /-- A TMU notification. -/
  | tmu_notify (s : PState) (u : UidTrackState) (ev : TmuEvent) :
      GpuStep (s, u) ((gpu_tmu_notifier s ev).1, u)
  /-- The metrics refresh performed by the sysfs time_in_state reads. -/
  | tis_refresh (s : PState) (u : UidTrackState) (now : Nat) :
      GpuStep (s, u) (gpu_dvfs_metrics_update s u s.level s.power_status now)
  /-- `gpu_dvfs_metrics_job_start`. -/
  | job_started (s : PState) (u : UidTrackState) (uidv slot now : Nat) :
      GpuStep (s, u) (s, gpu_dvfs_metrics_job_start u uidv slot now)
  /-- `gpu_dvfs_metrics_job_end`. -/
  | job_ended (s : PState) (u : UidTrackState) (uidv slot now : Nat) :
      GpuStep (s, u) (s, gpu_dvfs_metrics_job_end u s.level uidv slot now)
  /-- `gpu_dvfs_kctx_init` for a context of UID `uidv`. -/
  | kctx_created (s : PState) (u : UidTrackState) (uidv : Nat) :
      GpuStep (s, u)
        (s, { u with uid_stats_list := gpu_dvfs_kctx_list_insert s.table_size uidv u.uid_stats_list })
  /-- `gpu_dvfs_kctx_term`. -/
  | kctx_terminated (s : PState) (u : UidTrackState) (uidv : Nat) :
      GpuStep (s, u) (s, gpu_dvfs_kctx_term u uidv)

/-- Reachable states of the DVFS subsystem: a successful `gpu_dvfs_init`
(which requires a non-empty table and a boot level found in it) followed by
any interleaving of entry points. -/
inductive GpuReach : GpuSys → Prop where
  | boot (table : List GpuDvfsOpp) (boot_level hyst now0 nslots : Nat) (power0 : Bool) :
      1 ≤ table.length → boot_level < table.length →
      GpuReach (gpu_dvfs_init_state table boot_level hyst now0 power0,
        { uid_stats_list := [], js_uid_stats := List.replicate nslots none })
  | step (s1 s2 : GpuSys) : GpuReach s1 → GpuStep s1 s2 → GpuReach s2

/-- The level-lock bounds invariant of claim C2 (first part), plus the
bookkeeping facts the induction needs. -/
def boundsInv (s : PState) : Prop :=
  s.level_max = 0 ∧
  s.level_scaling_max ≤ s.level_scaling_min ∧
  s.level_scaling_min ≤ s.level_min ∧
  s.level_min = s.table_size - 1 ∧
  1 ≤ s.table_size ∧
  s.table.length = s.table_size

instance (s : PState) : Decidable (boundsInv s) := by
  unfold boundsInv; infer_instance

/-! ## Concrete instances used by witnesses and counterexamples -/

/-- A demo table row builder (values as a DT table would supply them). -/
def mkOpp (c0 c1 umin umax hyst : Nat) : GpuDvfsOpp :=
  { clk0 := c0, clk1 := c1, vol0 := 1, vol1 := 1, util_min := umin, util_max := umax,
    hysteresis := hyst,
    qos := { int_min := c0, mif_min := c0 + 1, cpu0_min := c0 + 2, cpu1_min := c0 + 3,
             cpu2_max := c0 + 4 },
    metrics := oppMetrics0 }

/-- A three-level demo table (level 0 fastest), clocks in MHz. -/
def demoTable : List GpuDvfsOpp :=
  [mkOpp 900 901 70 100 1, mkOpp 600 601 40 80 2, mkOpp 300 301 0 50 1]

/-- An empty per-UID tracking state with two job slots. -/
def demoUidEmpty : UidTrackState :=
  { uid_stats_list := [], js_uid_stats := [none, none] }

/-- Powered-on demo state at level 0 with the QOS vote bundle of level 0
outstanding. -/
def c1DownState : PState :=
  { gpu_dvfs_init_state demoTable 0 50 0 true with qos_level_last := 0, qos_enabled := true }

/-- Powered-on demo state at level 1 with the QOS vote bundle of level 1
outstanding. -/
def c1UpState : PState :=
  { gpu_dvfs_init_state demoTable 0 50 0 true with
      level := 1, qos_level_last := 1, qos_enabled := true }

/-- C2 counterexample chain: boot at level 0, powered on. -/
def c2Sys0 : GpuSys :=
  (gpu_dvfs_init_state demoTable 0 50 0 true, demoUidEmpty)

/-- C2 counterexample chain: ON→OFF transition at t=100. -/
def c2Sys1 : GpuSys :=
  ({ (gpu_dvfs_event_power_off c2Sys0.1 c2Sys0.2 100).1 with power_status := false },
   (gpu_dvfs_event_power_off c2Sys0.1 c2Sys0.2 100).2.1)

/-- C2 counterexample chain: the clockdown work fires (target becomes the
scaling floor, level 2). -/
def c2Sys2 : GpuSys := ((gpu_dvfs_clockdown_worker c2Sys1.1).1, c2Sys1.2)

/-- C2 counterexample chain: sysfs write of scaling_min_freq = 600 (level 1),
which ends with a reconciler run. -/
def c2Sys3 : GpuSys := ((scaling_min_freq_store c2Sys2.1 600).1, c2Sys2.2)

/-- The state on which that final reconciler run executed (scaling bounds
already updated by the store, reconciliation not yet run). -/
def c2Prior : PState :=
  { c2Sys2.1 with
      level_scaling_min := 1,
      level_scaling_max := min 1 c2Sys2.1.level_scaling_max }

/-- C2 witness state for the amended reconciler bound: level above the
scaling ceiling. -/
def c2WitState : PState :=
  { gpu_dvfs_init_state demoTable 0 50 0 true with
      level := 0, level_scaling_max := 1, level_scaling_min := 2, level_tmu_max := 0 }

/-- Scenario B state: scaling_max level 0, scaling_min level 2, thermal
ceiling level 1, GPU at level 0. -/
def c3ScenarioBState : PState :=
  { gpu_dvfs_init_state demoTable 0 50 0 true with
      level := 0, level_scaling_max := 0, level_scaling_min := 2, level_tmu_max := 1 }

/-- C3 counterexample state: scaling ceiling at level 2 (= floor), thermal
ceiling at level 1, GPU at level 0; the combined permitted ceiling of the
claim is level 2 but the code targets level 1. -/
def c3CexState : PState :=
  { gpu_dvfs_init_state demoTable 0 50 0 true with
      level := 0, level_target := 0, level_scaling_max := 2, level_scaling_min := 2,
      level_tmu_max := 1 }

/-- Powered-on state at level 0 used by the C4 theorems. -/
def c4State : PState :=
  { gpu_dvfs_init_state demoTable 0 50 0 true with metrics_last_power_state := true }

/-- Scenario C: one UID (1000) with a three-level time-in-state array. -/
def c5UidX : GpuDvfsUidStats :=
  { uid := 1000, active_kctx_count := 1, atoms_in_flight := 0, period_start := 0,
    tis_stats := List.replicate 3 oppMetrics0 }

/-- Scenario C tracking state: UID 1000 registered, no job in flight. -/
def c5U0 : UidTrackState := { uid_stats_list := [c5UidX], js_uid_stats := [none, none] }

/-- Scenario C pixel state: powered on at level 0. -/
def c5S0 : PState := gpu_dvfs_init_state demoTable 0 50 0 true

/-- Scenario C after job 1 starts at t=0 on slot 0. -/
def c5U1 : UidTrackState := gpu_dvfs_metrics_job_start c5U0 1000 0 0

/-- Scenario C after job 1 ends at t=10 (level still 0). -/
def c5U2 : UidTrackState := gpu_dvfs_metrics_job_end c5U1 c5S0.level 1000 0 10

/-- Scenario C after the level change 0→1 at t=10. -/
def c5Commit : PState × UidTrackState × List GpuEv := gpu_dvfs_set_new_level c5S0 c5U2 1 10

/-- Scenario C after job 2 starts at t=10 on slot 1. -/
def c5U3 : UidTrackState := gpu_dvfs_metrics_job_start c5Commit.2.1 1000 1 10

/-- Scenario C after job 2 ends at t=15 (level now 1). -/
def c5U4 : UidTrackState := gpu_dvfs_metrics_job_end c5U3 c5Commit.1.level 1000 1 15

/-- Scenario D / C6 demo: boot powered on at t=0 with clockdown hysteresis 50. -/
def c6S0 : PState := gpu_dvfs_init_state demoTable 0 50 0 true

/-- Scenario D: idle signalled at t=100. -/
def c6Off : PState × UidTrackState × List GpuEv := gpu_dvfs_event_power_off c6S0 demoUidEmpty 100

/-- C7 witness state: scaling bounds crossed (max at level 2, min at level 1). -/
def c7State : PState :=
  { gpu_dvfs_init_state demoTable 0 50 0 true with
      level_scaling_max := 2, level_scaling_min := 1 }

/-- C9 witness list: UIDs 100 and 300, sorted. -/
def c9List : List GpuDvfsUidStats :=
  [{ uid := 100, active_kctx_count := 1, atoms_in_flight := 0, period_start := 0,
     tis_stats := List.replicate 3 oppMetrics0 },
   { uid := 300, active_kctx_count := 2, atoms_in_flight := 0, period_start := 0,
     tis_stats := List.replicate 3 oppMetrics0 }]

/-- The UID keys of a stats list, in list order. -/
def uidsOf (l : List GpuDvfsUidStats) : List Nat := l.map (fun st => st.uid)

/-! ## Helper lemmas -/

/-- A successful `findIdx?` returns an in-range index. -/
theorem findIdx_some_lt_length {α : Type} {p : α → Bool} {l : List α} {i : Nat}
    (h : l.findIdx? p = some i) : i < l.length :=
  (List.findIdx?_eq_some_iff_findIdx_eq.mp h).1

/-- `List.getD` after a `List.set` at the same in-range index. -/
theorem getD_set_self {α : Type} (a d : α) :
    ∀ (l : List α) (i : Nat), i < l.length → (l.set i a).getD i d = a := by
  intro l
  induction l with
  | nil => intro i h; simp at h
  | cons b t ih =>
    intro i h
    cases i with
    | zero => rfl
    | succ j =>
      have hj : j < t.length := by simpa using h
      simpa [List.set, List.getD] using ih j hj

/-- Setting an index to the element already there is the identity. -/
theorem set_getD_id {α : Type} (d : α) :
    ∀ (l : List α) (i : Nat), l.set i (l.getD i d) = l := by
  intro l
  induction l with
  | nil => intro i; rfl
  | cons b t ih =>
    intro i
    cases i with
    | zero => rfl
    | succ j => simpa [List.set, List.getD] using ih j

/-! ## Claim C1 -/

/-- Claim C1: for `gpu_dvfs_set_new_level` while powered on, the claim (and
the source's own comment) say that moving to a less performant level applies
the QOS vote bundle of the new level after the clock frequencies are
programmed.  The code assigns `pc->dvfs.level = next_level` before testing
`next_level > pc->dvfs.level`, so that guard can never be true: on the
down-clock path no QOS bundle is applied at all.  At the concrete failing
input (powered on at level 0, committing level 1) the emitted trace contains
only the two clock programming calls; the up-clock path (level 1 to level 0)
does apply the bundle before programming the clocks. -/
theorem C1_down_clock_qos_never_applied :
    (gpu_dvfs_set_new_level c1DownState demoUidEmpty 1 5).2.2 =
      [GpuEv.calSetRate 0 600, GpuEv.calSetRate 1 601] ∧
    (gpu_dvfs_set_new_level c1DownState demoUidEmpty 1 5).1.level = 1 ∧
    (gpu_dvfs_set_new_level c1UpState demoUidEmpty 0 5).2.2 =
      [GpuEv.qosApply 0, GpuEv.calSetRate 0 900, GpuEv.calSetRate 1 901] := by
  refine ⟨by decide, by decide, by decide⟩

/-! ## Claim C8 -/

/-- Claim C8: a scaling min/max frequency write whose value matches no table
row's top-level clock fails with -EINVAL and leaves the whole DVFS state
(in particular level_scaling_min, level_scaling_max and level_target)
exactly as it was. -/
theorem C8_invalid_scaling_freq_rejected (s : PState) (clock : Nat)
    (h : ∀ o ∈ s.table, o.clk0 ≠ clock) :
    scaling_max_freq_store s clock = (s, Except.error (-22)) ∧
    scaling_min_freq_store s clock = (s, Except.error (-22)) := by
  have hnone : s.table.findIdx? (fun o => o.clk0 == clock) = none := by
    rw [List.findIdx?_eq_none_iff]
    intro o ho
    simpa using h o ho
  constructor
  · unfold scaling_max_freq_store
    rw [hnone]
  · unfold scaling_min_freq_store
    rw [hnone]

/-- Witness for C8 at a concrete input: clock 555 matches no row of the demo
table. -/
theorem C8_witness :
    scaling_max_freq_store (gpu_dvfs_init_state demoTable 0 50 0 true) 555 =
      (gpu_dvfs_init_state demoTable 0 50 0 true, Except.error (-22)) ∧
    scaling_min_freq_store (gpu_dvfs_init_state demoTable 0 50 0 true) 555 =
      (gpu_dvfs_init_state demoTable 0 50 0 true, Except.error (-22)) :=
  C8_invalid_scaling_freq_rejected (gpu_dvfs_init_state demoTable 0 50 0 true) 555
    (by decide)

/-! ## Claim C10 -/

/-- Claim C10: `gpu_dvfs_qos_set` is idempotent — when the last-applied QOS
level already equals the requested one the call changes nothing and issues no
requests; otherwise it leaves qos.enabled true and qos.level_last equal to
the level, so an immediate repeat is a no-op.  `gpu_dvfs_qos_reset` sets
qos.level_last to -1 and qos.enabled to false, after which a set for any
level always applies that level's vote bundle. -/
theorem C10_qos_set_idempotent :
    (∀ (s : PState) (level : Nat), s.qos_level_last = (level : Int) →
        gpu_dvfs_qos_set s level = (s, [])) ∧
    (∀ (s : PState) (level : Nat), s.qos_level_last ≠ (level : Int) →
        (gpu_dvfs_qos_set s level).1.qos_enabled = true ∧
        (gpu_dvfs_qos_set s level).1.qos_level_last = (level : Int)) ∧
    (∀ (s : PState) (level : Nat),
        gpu_dvfs_qos_set (gpu_dvfs_qos_set s level).1 level =
          ((gpu_dvfs_qos_set s level).1, [])) ∧
    (∀ s : PState, (gpu_dvfs_qos_reset s).1.qos_level_last = -1 ∧
        (gpu_dvfs_qos_reset s).1.qos_enabled = false) ∧
    (∀ (s : PState) (level : Nat),
        (gpu_dvfs_qos_set (gpu_dvfs_qos_reset s).1 level).2 = [GpuEv.qosApply level] ∧
        (gpu_dvfs_qos_set (gpu_dvfs_qos_reset s).1 level).1.qos_votes =
          (s.table.getD level opp0).qos) := by
  refine ⟨?_, ?_, ?_, ?_, ?_⟩
  · intro s level h
    simp [gpu_dvfs_qos_set, h]
  · intro s level h
    simp [gpu_dvfs_qos_set, h]
  · intro s level
    by_cases h : s.qos_level_last = (level : Int)
    · simp [gpu_dvfs_qos_set, h]
    · simp [gpu_dvfs_qos_set, h]
  · intro s
    exact ⟨rfl, rfl⟩
  · intro s level
    have hne : (gpu_dvfs_qos_reset s).1.qos_level_last ≠ (level : Int) := by
      show (-1 : Int) ≠ (level : Int)
      omega
    constructor
    · simp [gpu_dvfs_qos_set, hne]
    · simp [gpu_dvfs_qos_set, hne, gpu_dvfs_qos_reset]

/-- Witness for C10 at concrete inputs: level 1 of the demo table. -/
theorem C10_witness :
    gpu_dvfs_qos_set c1DownState 0 = (c1DownState, []) ∧
    ((gpu_dvfs_qos_set c5S0 1).1.qos_enabled = true ∧
      (gpu_dvfs_qos_set c5S0 1).1.qos_level_last = (1 : Int)) ∧
    gpu_dvfs_qos_set (gpu_dvfs_qos_set c5S0 1).1 1 = ((gpu_dvfs_qos_set c5S0 1).1, []) ∧
    ((gpu_dvfs_qos_reset c1DownState).1.qos_level_last = -1 ∧
      (gpu_dvfs_qos_reset c1DownState).1.qos_enabled = false) ∧
    ((gpu_dvfs_qos_set (gpu_dvfs_qos_reset c1DownState).1 0).2 = [GpuEv.qosApply 0] ∧
      (gpu_dvfs_qos_set (gpu_dvfs_qos_reset c1DownState).1 0).1.qos_votes =
        (c1DownState.table.getD 0 opp0).qos) :=
  ⟨C10_qos_set_idempotent.1 c1DownState 0 (by decide),
   C10_qos_set_idempotent.2.1 c5S0 1 (by decide),
   C10_qos_set_idempotent.2.2.1 c5S0 1,
   C10_qos_set_idempotent.2.2.2.1 c1DownState,
   C10_qos_set_idempotent.2.2.2.2 c1DownState 0⟩

/-! ## Claim C7 -/

/-- Claim C7: when the reconciler runs with level_scaling_max more performant
bound crossed (scaling max index above scaling min index), it resets
level_scaling_max to 0 and level_scaling_min to table_size-1, logs a
warning, and the caller that triggered it sees no failure (a TMU notifier
carrying a valid throttling level still returns NOTIFY_OK). -/
theorem C7_inconsistent_bounds_self_heal (s : PState)
    (h : s.level_scaling_min < s.level_scaling_max) :
    (gpu_dvfs_update_level_locks s).1.level_scaling_max = 0 ∧
    (gpu_dvfs_update_level_locks s).1.level_scaling_min = s.table_size - 1 ∧
    GpuEv.logWarn ∈ (gpu_dvfs_update_level_locks s).2 ∧
    (∀ d : Int, 0 ≤ d → d < (s.table_size : Int) →
      (gpu_tmu_notifier s (TmuEvent.gpu_throttling d)).2 = NOTIFY_OK) := by
  refine ⟨?_, ?_, ?_, ?_⟩
  · unfold gpu_dvfs_update_level_locks
    rw [if_pos h]
    dsimp only
    split_ifs <;> rfl
  · unfold gpu_dvfs_update_level_locks
    rw [if_pos h]
    dsimp only
    split_ifs <;> rfl
  · unfold gpu_dvfs_update_level_locks
    rw [if_pos h]
    dsimp only
    simp
  · intro d hd0 hd1
    unfold gpu_tmu_notifier
    dsimp only
    rw [if_pos ⟨hd0, hd1⟩]

/-- Witness for C7: demo state with scaling max at level 2 and scaling min at
level 1. -/
theorem C7_witness :
    (gpu_dvfs_update_level_locks c7State).1.level_scaling_max = 0 ∧
    (gpu_dvfs_update_level_locks c7State).1.level_scaling_min = c7State.table_size - 1 ∧
    GpuEv.logWarn ∈ (gpu_dvfs_update_level_locks c7State).2 ∧
    (gpu_tmu_notifier c7State (TmuEvent.gpu_throttling 1)).2 = NOTIFY_OK := by
  have h := C7_inconsistent_bounds_self_heal c7State (by decide)
  exact ⟨h.1, h.2.1, h.2.2.1, h.2.2.2 1 (by decide) (by decide)⟩

/-! ## Claim C3 -/

/-- Claim C3 (amended): for a reconciler run with consistent bounds, the TMU
ceiling is applied last and therefore takes final precedence: if the current
level is more performant than the thermal ceiling, level_target becomes the
thermal ceiling (even when level_scaling_max is a tighter restriction);
otherwise, if the current level is more performant than level_scaling_max
the target becomes level_scaling_max, if it is less performant than
level_scaling_min the target becomes level_scaling_min, and otherwise
level_target is left untouched.  Scenario B (scaling_max 0, scaling_min 2,
thermal ceiling 1, GPU at level 0) therefore yields target level 1. -/
theorem C3_reconciler_target (s : PState)
    (h : s.level_scaling_max ≤ s.level_scaling_min) :
    (gpu_dvfs_update_level_locks s).1.level_target =
      (if s.level < s.level_tmu_max then s.level_tmu_max
       else if s.level < s.level_scaling_max then s.level_scaling_max
       else if s.level_scaling_min < s.level then s.level_scaling_min
       else s.level_target) := by
  unfold gpu_dvfs_update_level_locks
  rw [if_neg (by omega : ¬ s.level_scaling_min < s.level_scaling_max)]
  dsimp only
  split_ifs <;> rfl

/-- Counterexample to C3 as stated: with scaling ceiling at level 2, thermal
ceiling at level 1 and the GPU at level 0, the permitted ceiling in the
claim's sense (level_scaling_max further limited by the thermal ceiling) is
level 2, but the reconciler sets level_target to 1, not 2. -/
theorem C3_counterexample :
    c3CexState.level_scaling_max ≤ c3CexState.level_scaling_min ∧
    c3CexState.level < max c3CexState.level_scaling_max c3CexState.level_tmu_max ∧
    (gpu_dvfs_update_level_locks c3CexState).1.level_target = 1 ∧
    max c3CexState.level_scaling_max c3CexState.level_tmu_max = 2 := by
  refine ⟨by decide, by decide, by decide, by decide⟩

/-- Witness for C3: Scenario B evaluates to target level 1. -/
theorem C3_witness :
    (gpu_dvfs_update_level_locks c3ScenarioBState).1.level_target =
      (if c3ScenarioBState.level < c3ScenarioBState.level_tmu_max then
         c3ScenarioBState.level_tmu_max
       else if c3ScenarioBState.level < c3ScenarioBState.level_scaling_max then
         c3ScenarioBState.level_scaling_max
       else if c3ScenarioBState.level_scaling_min < c3ScenarioBState.level then
         c3ScenarioBState.level_scaling_min
       else c3ScenarioBState.level_target) ∧
    (gpu_dvfs_update_level_locks c3ScenarioBState).1.level_target = 1 :=
  ⟨C3_reconciler_target c3ScenarioBState (by decide), by decide⟩

/-- Eta expansion collapse for the metrics block. -/
theorem oppMetricsMkEta (m : GpuDvfsOppMetrics) :
    ({ time_total := m.time_total, entry_count := m.entry_count,
       time_last_entry := m.time_last_entry } : GpuDvfsOppMetrics) = m := rfl

/-- Eta expansion collapse for a table row. -/
theorem oppMkEta (o : GpuDvfsOpp) :
    ({ clk0 := o.clk0, clk1 := o.clk1, vol0 := o.vol0, vol1 := o.vol1,
       util_min := o.util_min, util_max := o.util_max, hysteresis := o.hysteresis,
       qos := o.qos, metrics := o.metrics } : GpuDvfsOpp) = o := rfl

/-- Variant of `set_getD_id` in the `getElem?` normal form used by simp. -/
theorem set_getElem_getD_id {α : Type} (d : α) :
    ∀ (l : List α) (i : Nat), l.set i (l[i]?.getD d) = l := by
  intro l
  induction l with
  | nil => intro i; rfl
  | cons b t ih =>
    intro i
    cases i with
    | zero => simp
    | succ j => simpa [List.set] using ih j

/-- `gpu_dvfs_metrics_update` never changes the active level field. -/
theorem gpu_dvfs_metrics_update_level (s : PState) (u : UidTrackState)
    (next : Nat) (ps : Bool) (now : Nat) :
    (gpu_dvfs_metrics_update s u next ps now).1.level = s.level := by
  unfold gpu_dvfs_metrics_update
  dsimp only
  split_ifs <;> rfl

/-- A metrics update whose timestamp, power state and level bookkeeping are
already current, called either powered off or at the unchanged level, is a
complete no-op. -/
theorem gpu_dvfs_metrics_update_noop (s : PState) (u : UidTrackState)
    (next : Nat) (ps : Bool) (now : Nat)
    (hT : s.metrics_last_time = now) (hP : s.metrics_last_power_state = ps)
    (hL : s.metrics_last_level = next) (h : ps = false ∨ next = s.level) :
    gpu_dvfs_metrics_update s u next ps now = (s, u) := by
  obtain ⟨tb, ts, lv, lst, lt, lmax, lmin, smax, smin, tmu, ut, gd, mlt, mlp, mll,
    pom, pfm, qll, qen, qv, ch, cp, pst⟩ := s
  dsimp only at hT hP hL h
  subst hT hP hL
  rcases h with h | h
  · subst h
    simp [gpu_dvfs_metrics_update, Nat.sub_self, oppMetricsMkEta]
  · subst h
    by_cases hp : mlp <;>
      simp [gpu_dvfs_metrics_update, hp, Nat.sub_self, oppMetricsMkEta, oppMkEta,
        tableModifyMetrics, set_getElem_getD_id]

/-! ## Claim C4 -/

/-- Claim C4 (amended): calling `gpu_dvfs_metrics_update` twice in immediate
succession with identical (next_level, power_state) arguments and zero
elapsed time leaves every counter unchanged after the first call — provided
the arguments fall in the function's contract cases (a power-state update
with next_level equal to the current level, or any powered-off update).  In
those cases the second call is a complete no-op, timestamp included.  When
power_state is true and next_level differs from the (unchanged) current
level, the second call increments the incoming level's entry count again,
so the claim as stated fails there (see the counterexample). -/
theorem C4_metrics_update_idempotent (s : PState) (u : UidTrackState)
    (next : Nat) (ps : Bool) (now : Nat)
    (h : ps = false ∨ next = s.level) :
    gpu_dvfs_metrics_update (gpu_dvfs_metrics_update s u next ps now).1
        (gpu_dvfs_metrics_update s u next ps now).2 next ps now =
      gpu_dvfs_metrics_update s u next ps now := by
  apply gpu_dvfs_metrics_update_noop
  · rfl
  · rfl
  · rfl
  · rcases h with h | h
    · exact Or.inl h
    · exact Or.inr (by rw [gpu_dvfs_metrics_update_level]; exact h)

/-- Counterexample to C4 as stated: powered on at level 0, two immediate
calls with (next_level = 1, power_state = true) and zero elapsed time — the
second call increments level 1's entry count again (from 1 to 2), so a
counter does change. -/
theorem C4_counterexample :
    ((gpu_dvfs_metrics_update c4State demoUidEmpty 1 true 7).1.table.getD 1 opp0).metrics.entry_count = 1 ∧
    ((gpu_dvfs_metrics_update (gpu_dvfs_metrics_update c4State demoUidEmpty 1 true 7).1
        (gpu_dvfs_metrics_update c4State demoUidEmpty 1 true 7).2 1 true
        7).1.table.getD 1 opp0).metrics.entry_count = 2 := by
  refine ⟨by decide, by decide⟩

/-- Witness for C4 at a concrete input: powered on at level 0, repeated
update with next_level = 0. -/
theorem C4_witness :
    gpu_dvfs_metrics_update (gpu_dvfs_metrics_update c4State demoUidEmpty 0 true 7).1
        (gpu_dvfs_metrics_update c4State demoUidEmpty 0 true 7).2 0 true 7 =
      gpu_dvfs_metrics_update c4State demoUidEmpty 0 true 7 :=
  C4_metrics_update_idempotent c4State demoUidEmpty 0 true 7 (Or.inr (by decide))

/-! ## Claim C6 -/

/-- Claim C6: the clockdown task is armed with delay clockdown_hysteresis on
every ON→OFF transition and cancelled on every OFF→ON transition; when it
fires it forces level_target down to level_scaling_min and releases all
outstanding QOS votes, and it leaves the aggregate powered-off entry count
untouched — that count increments exactly once, at the power-off transition
itself. -/
theorem C6_clockdown_lifecycle :
    (∀ (s : PState) (u : UidTrackState) (now : Nat),
      (gpu_dvfs_event_power_off s u now).1.clockdown_pending =
        some (now + s.clockdown_hysteresis) ∧
      GpuEv.queueClockdown s.clockdown_hysteresis ∈ (gpu_dvfs_event_power_off s u now).2.2) ∧
    (∀ (s : PState) (u : UidTrackState) (now : Nat),
      (gpu_dvfs_event_power_on s u now).1.clockdown_pending = none ∧
      GpuEv.cancelClockdown ∈ (gpu_dvfs_event_power_on s u now).2.2) ∧
    (∀ s : PState,
      (gpu_dvfs_clockdown_worker s).1.level_target = s.level_scaling_min ∧
      (gpu_dvfs_clockdown_worker s).1.qos_votes = qosVotesReleased ∧
      (gpu_dvfs_clockdown_worker s).1.qos_enabled = false ∧
      (gpu_dvfs_clockdown_worker s).1.power_off_metrics = s.power_off_metrics) ∧
    (∀ (s : PState) (u : UidTrackState) (now : Nat),
      s.metrics_last_power_state = true →
      (gpu_dvfs_event_power_off s u now).1.power_off_metrics.entry_count =
        s.power_off_metrics.entry_count + 1) := by
  refine ⟨?_, ?_, ?_, ?_⟩
  · intro s u now
    exact ⟨rfl, by simp [gpu_dvfs_event_power_off]⟩
  · intro s u now
    exact ⟨rfl, by simp [gpu_dvfs_event_power_on]⟩
  · intro s
    exact ⟨rfl, rfl, rfl, rfl⟩
  · intro s u now h
    unfold gpu_dvfs_event_power_off gpu_dvfs_metrics_update
    simp [h]

/-- Witness for C6: Scenario D — power-off at t=100 with hysteresis 50 arms
the task for t=150 and bumps the powered-off entry count to exactly 1; the
subsequent firing forces the target to the scaling floor, releases the QOS
votes, and leaves that count at 1. -/
theorem C6_witness :
    ((gpu_dvfs_event_power_off c6S0 demoUidEmpty 100).1.clockdown_pending = some (100 + 50) ∧
      GpuEv.queueClockdown 50 ∈ (gpu_dvfs_event_power_off c6S0 demoUidEmpty 100).2.2) ∧
    ((gpu_dvfs_clockdown_worker c6Off.1).1.level_target = c6Off.1.level_scaling_min ∧
      (gpu_dvfs_clockdown_worker c6Off.1).1.qos_votes = qosVotesReleased ∧
      (gpu_dvfs_clockdown_worker c6Off.1).1.qos_enabled = false ∧
      (gpu_dvfs_clockdown_worker c6Off.1).1.power_off_metrics = c6Off.1.power_off_metrics) ∧
    (gpu_dvfs_event_power_off c6S0 demoUidEmpty 100).1.power_off_metrics.entry_count =
      c6S0.power_off_metrics.entry_count + 1 ∧
    ((gpu_dvfs_event_power_on c6Off.1 demoUidEmpty 200).1.clockdown_pending = none ∧
      GpuEv.cancelClockdown ∈ (gpu_dvfs_event_power_on c6Off.1 demoUidEmpty 200).2.2) :=
  ⟨⟨(C6_clockdown_lifecycle.1 c6S0 demoUidEmpty 100).1,
    (C6_clockdown_lifecycle.1 c6S0 demoUidEmpty 100).2⟩,
   C6_clockdown_lifecycle.2.2.1 c6Off.1,
   C6_clockdown_lifecycle.2.2.2 c6S0 demoUidEmpty 100 (by decide),
   C6_clockdown_lifecycle.2.1 c6Off.1 demoUidEmpty 200⟩

/-! ## Claim C2: bounds invariant machinery -/

/-- `gpu_dvfs_metrics_update` does not touch the level-lock bounds. -/
theorem boundsInv_metrics_update (s : PState) (u : UidTrackState)
    (next : Nat) (ps : Bool) (now : Nat) (h : boundsInv s) :
    boundsInv (gpu_dvfs_metrics_update s u next ps now).1 := by
  unfold gpu_dvfs_metrics_update
  dsimp only
  split_ifs <;> simpa [boundsInv, tableModifyMetrics] using h

/-- `gpu_dvfs_qos_set` does not touch the level-lock bounds. -/
theorem boundsInv_qos_set (s : PState) (level : Nat) (h : boundsInv s) :
    boundsInv (gpu_dvfs_qos_set s level).1 := by
  unfold gpu_dvfs_qos_set
  dsimp only
  split_ifs <;> simpa [boundsInv] using h

/-- `gpu_dvfs_qos_reset` does not touch the level-lock bounds. -/
theorem boundsInv_qos_reset (s : PState) (h : boundsInv s) :
    boundsInv (gpu_dvfs_qos_reset s).1 := by
  simpa [boundsInv, gpu_dvfs_qos_reset] using h

/-- `gpu_dvfs_set_new_level` does not touch the level-lock bounds. -/
theorem boundsInv_set_new_level (s : PState) (u : UidTrackState)
    (next : Nat) (now : Nat) (h : boundsInv s) :
    boundsInv (gpu_dvfs_set_new_level s u next now).1 := by
  unfold gpu_dvfs_set_new_level
  dsimp only
  rw [if_neg (lt_irrefl next)]
  by_cases hc : next < s.level
  · rw [if_pos hc]
    have h1 := boundsInv_qos_set s next h
    have h2 := boundsInv_metrics_update (gpu_dvfs_qos_set s next).1 u next true now h1
    simpa [boundsInv] using h2
  · rw [if_neg hc]
    have h2 := boundsInv_metrics_update s u next true now h
    simpa [boundsInv] using h2

/-- The reconciler preserves the bounds invariant (the self-heal branch
restores the widest legal range). -/
theorem boundsInv_update_level_locks (s : PState) (h : boundsInv s) :
    boundsInv (gpu_dvfs_update_level_locks s).1 := by
  obtain ⟨h1, h2, h3, h4, h5, h6⟩ := h
  unfold gpu_dvfs_update_level_locks
  dsimp only
  split_ifs <;> refine ⟨?_, ?_, ?_, ?_, ?_, ?_⟩ <;> simp_all

/-- The power-on hook preserves the bounds invariant. -/
theorem boundsInv_event_power_on (s : PState) (u : UidTrackState) (now : Nat)
    (h : boundsInv s) : boundsInv (gpu_dvfs_event_power_on s u now).1 := by
  have h2 := boundsInv_metrics_update s u s.level true now h
  simpa [boundsInv, gpu_dvfs_event_power_on] using h2

/-- The power-off hook preserves the bounds invariant. -/
theorem boundsInv_event_power_off (s : PState) (u : UidTrackState) (now : Nat)
    (h : boundsInv s) : boundsInv (gpu_dvfs_event_power_off s u now).1 := by
  have h2 := boundsInv_metrics_update s u s.level false now h
  simpa [boundsInv, gpu_dvfs_event_power_off] using h2

/-- The clockdown worker preserves the bounds invariant. -/
theorem boundsInv_clockdown_worker (s : PState) (h : boundsInv s) :
    boundsInv (gpu_dvfs_clockdown_worker s).1 := by
  simpa [boundsInv, gpu_dvfs_clockdown_worker, gpu_dvfs_qos_reset] using h

/-- The governor evaluation preserves the bounds invariant. -/
theorem boundsInv_governor (s : PState) (util : Nat) (h : boundsInv s) :
    boundsInv (gpu_dvfs_governor_get_next_level s util).1 := by
  unfold gpu_dvfs_governor_get_next_level
  dsimp only
  split_ifs <;> simpa [boundsInv] using h

/-- The control worker preserves the bounds invariant. -/
theorem boundsInv_control_worker (s : PState) (u : UidTrackState) (now : Nat)
    (h : boundsInv s) : boundsInv (gpu_dvfs_control_worker s u now).1 := by
  have hg : boundsInv (gpu_dvfs_governor_get_next_level s s.util).1 :=
    boundsInv_governor s s.util h
  have hs1 : boundsInv { (gpu_dvfs_governor_get_next_level s s.util).1 with
      level_target := (gpu_dvfs_governor_get_next_level s s.util).2 } := hg
  have hq1 : boundsInv (gpu_dvfs_qos_set
      { (gpu_dvfs_governor_get_next_level s s.util).1 with
        level_target := (gpu_dvfs_governor_get_next_level s s.util).2 }
      (gpu_dvfs_governor_get_next_level s s.util).2).1 :=
    boundsInv_qos_set _ _ hs1
  unfold gpu_dvfs_control_worker
  dsimp only
  split_ifs with hps hq hl hl
  · exact boundsInv_set_new_level _ u _ now hq1
  · exact hq1
  · exact boundsInv_set_new_level _ u _ now hs1
  · exact hs1
  · exact h

/-- The scaling_max sysfs store preserves the bounds invariant. -/
theorem boundsInv_scaling_max_store (s : PState) (clock : Nat) (h : boundsInv s) :
    boundsInv (scaling_max_freq_store s clock).1 := by
  obtain ⟨h1, h2, h3, h4, h5, h6⟩ := h
  unfold scaling_max_freq_store
  cases hf : s.table.findIdx? (fun o => o.clk0 == clock) with
  | none => exact ⟨h1, h2, h3, h4, h5, h6⟩
  | some level =>
    have hlt : level < s.table.length := findIdx_some_lt_length hf
    dsimp only
    apply boundsInv_update_level_locks
    refine ⟨h1, ?_, ?_, h4, h5, h6⟩
    · dsimp only
      omega
    · dsimp only
      omega

/-- The scaling_min sysfs store preserves the bounds invariant. -/
theorem boundsInv_scaling_min_store (s : PState) (clock : Nat) (h : boundsInv s) :
    boundsInv (scaling_min_freq_store s clock).1 := by
  obtain ⟨h1, h2, h3, h4, h5, h6⟩ := h
  unfold scaling_min_freq_store
  cases hf : s.table.findIdx? (fun o => o.clk0 == clock) with
  | none => exact ⟨h1, h2, h3, h4, h5, h6⟩
  | some level =>
    have hlt : level < s.table.length := findIdx_some_lt_length hf
    dsimp only
    apply boundsInv_update_level_locks
    refine ⟨h1, ?_, ?_, h4, h5, h6⟩
    · dsimp only
      omega
    · dsimp only
      omega

/-- The TMU notifier preserves the bounds invariant. -/
theorem boundsInv_tmu_notifier (s : PState) (ev : TmuEvent) (h : boundsInv s) :
    boundsInv (gpu_tmu_notifier s ev).1 := by
  cases ev with
  | gpu_cold =>
    exact boundsInv_update_level_locks _ (by simpa [boundsInv] using h)
  | gpu_normal =>
    exact boundsInv_update_level_locks _ (by simpa [boundsInv] using h)
  | gpu_throttling d =>
    unfold gpu_tmu_notifier
    dsimp only
    split_ifs with hd
    · exact boundsInv_update_level_locks _ (by simpa [boundsInv] using h)
    · exact h

/-- Every subsystem transition preserves the bounds invariant. -/
theorem boundsInv_step (a b : GpuSys) (hstep : GpuStep a b) (h : boundsInv a.1) :
    boundsInv b.1 := by
  cases hstep with
  | util_report s u v => simpa [boundsInv] using h
  | worker s u now => exact boundsInv_control_worker s u now h
  | power_on s u now hp =>
    simpa [boundsInv] using boundsInv_event_power_on s u now h
  | power_off s u now hp =>
    simpa [boundsInv] using boundsInv_event_power_off s u now h
  | clockdown_fire s u hp => exact boundsInv_clockdown_worker s h
  | scaling_max_write s u clock => exact boundsInv_scaling_max_store s clock h
  | scaling_min_write s u clock => exact boundsInv_scaling_min_store s clock h
  | tmu_notify s u ev => exact boundsInv_tmu_notifier s ev h
  | tis_refresh s u now => exact boundsInv_metrics_update s u s.level s.power_status now h
  | job_started s u uidv slot now => exact h
  | job_ended s u uidv slot now => exact h
  | kctx_created s u uidv => exact h
  | kctx_terminated s u uidv => exact h

/-- The bounds invariant holds at the successfully initialised state. -/
theorem boundsInv_init (table : List GpuDvfsOpp) (boot_level hyst now0 : Nat)
    (power0 : Bool) (h1 : 1 ≤ table.length) :
    boundsInv (gpu_dvfs_init_state table boot_level hyst now0 power0) := by
  refine ⟨rfl, ?_, ?_, rfl, h1, ?_⟩
  · simp [gpu_dvfs_init_state]
  · simp [gpu_dvfs_init_state]
  · simp [gpu_dvfs_init_state, tableModifyMetrics]

/-! ## Claim C2 -/

/-- Claim C2 (amended): in every reachable state of the DVFS subsystem,
0 == level_max ≤ level_scaling_max ≤ level_scaling_min ≤ level_min ==
table_size-1 holds.  For level_target the guarantee is weaker than the claim
states: immediately after a reconciler run that actually writes level_target
(the current level is below the scaling ceiling, above the scaling floor, or
below the thermal ceiling) and in which the thermal ceiling does not exceed
the scaling floor, level_target lies within
[min(level_scaling_max, level_tmu_max), level_scaling_min].  A run in which
the current level is already inside all bounds does not write level_target
at all and can leave a stale out-of-range value (see the counterexample). -/
theorem C2_bounds_invariant :
    (∀ sys : GpuSys, GpuReach sys → boundsInv sys.1) ∧
    (∀ s : PState,
      s.level_scaling_max ≤ s.level_scaling_min →
      s.level_tmu_max ≤ s.level_scaling_min →
      (s.level < s.level_scaling_max ∨ s.level_scaling_min < s.level ∨
        s.level < s.level_tmu_max) →
      min s.level_scaling_max s.level_tmu_max ≤
          (gpu_dvfs_update_level_locks s).1.level_target ∧
        (gpu_dvfs_update_level_locks s).1.level_target ≤ s.level_scaling_min) := by
  constructor
  · intro sys h
    induction h with
    | boot table boot_level hyst now0 nslots power0 h1 h2 =>
      exact boundsInv_init table boot_level hyst now0 power0 h1
    | step s1 s2 h1 hstep ih => exact boundsInv_step s1 s2 hstep ih
  · intro s hc ht hw
    unfold gpu_dvfs_update_level_locks
    rw [if_neg (by omega : ¬ s.level_scaling_min < s.level_scaling_max)]
    dsimp only
    split_ifs <;> constructor <;> dsimp only <;> omega

/-- Counterexample to C2 as stated: the state reached by boot at level 0,
power-off at t=100, the clockdown worker firing (level_target becomes the
scaling floor, level 2) and then a sysfs write of scaling_min_freq = 600
(level 1).  The write ends with a reconciler run, yet level_target (2) is
left above level_scaling_min (1), outside the claimed interval. -/
theorem C2_counterexample :
    GpuReach c2Sys3 ∧
    c2Sys3.1 = (gpu_dvfs_update_level_locks c2Prior).1 ∧
    c2Sys3.1.level_scaling_min = 1 ∧
    c2Sys3.1.level_target = 2 ∧
    ¬ (c2Sys3.1.level_target ≤ c2Sys3.1.level_scaling_min) := by
  refine ⟨?_, by decide, by decide, by decide, by decide⟩
  have h0 : GpuReach c2Sys0 :=
    GpuReach.boot demoTable 0 50 0 2 true (by decide) (by decide)
  have h1 : GpuReach c2Sys1 :=
    GpuReach.step c2Sys0 c2Sys1 h0 (GpuStep.power_off c2Sys0.1 c2Sys0.2 100 (by decide))
  have h2 : GpuReach c2Sys2 :=
    GpuReach.step c2Sys1 c2Sys2 h1 (GpuStep.clockdown_fire c2Sys1.1 c2Sys1.2 (by decide))
  exact GpuReach.step c2Sys2 c2Sys3 h2 (GpuStep.scaling_min_write c2Sys2.1 c2Sys2.2 600)

/-- Witness for C2: the boot state of the demo table satisfies the bounds
invariant, and a reconciler run on a state whose level is above the scaling
ceiling writes a target inside the permitted interval. -/
theorem C2_witness :
    boundsInv c2Sys0.1 ∧
    (min c2WitState.level_scaling_max c2WitState.level_tmu_max ≤
        (gpu_dvfs_update_level_locks c2WitState).1.level_target ∧
      (gpu_dvfs_update_level_locks c2WitState).1.level_target ≤
        c2WitState.level_scaling_min) :=
  ⟨C2_bounds_invariant.1 c2Sys0
      (GpuReach.boot demoTable 0 50 0 2 true (by decide) (by decide)),
   C2_bounds_invariant.2 c2WitState (by decide) (by decide) (Or.inl (by decide))⟩

/-! ## Claim C9: UID list machinery -/

/-- `uidsOf` on nil. -/
theorem uidsOf_nil : uidsOf [] = [] := rfl

/-- `uidsOf` on cons. -/
theorem uidsOf_cons (e : GpuDvfsUidStats) (t : List GpuDvfsUidStats) :
    uidsOf (e :: t) = e.uid :: uidsOf t := rfl

/-- In-place stats updates that keep the uid field leave the key list
unchanged. -/
theorem uidsOf_updateUid (uidv : Nat) (f : GpuDvfsUidStats → GpuDvfsUidStats)
    (hf : ∀ st, (f st).uid = st.uid) :
    ∀ l : List GpuDvfsUidStats, uidsOf (updateUid l uidv f) = uidsOf l := by
  intro l
  induction l with
  | nil => rfl
  | cons e t ih =>
    by_cases h : e.uid = uidv <;>
      simp [updateUid, uidsOf, h, hf] <;>
        simpa [updateUid, uidsOf] using ih

/-- `uidStatsLevelChange` keeps the uid field. -/
theorem uid_uidStatsLevelChange (st : GpuDvfsUidStats) (level et : Nat) :
    (uidStatsLevelChange st level et).uid = st.uid := by
  unfold uidStatsLevelChange
  split <;> rfl

/-- `uidStatsJobStart` keeps the uid field. -/
theorem uid_uidStatsJobStart (st : GpuDvfsUidStats) (now : Nat) :
    (uidStatsJobStart st now).uid = st.uid := by
  unfold uidStatsJobStart
  dsimp only
  split <;> rfl

/-- `uidStatsJobEnd` keeps the uid field. -/
theorem uid_uidStatsJobEnd (st : GpuDvfsUidStats) (level now : Nat) :
    (uidStatsJobEnd st level now).uid = st.uid := by
  unfold uidStatsJobEnd
  dsimp only
  split <;> rfl

/-- The level-change walk over the job slots leaves the key list unchanged. -/
theorem uidsOf_uid_level_change (u : UidTrackState) (level et : Nat) :
    uidsOf (gpu_dvfs_metrics_uid_level_change u level et).uid_stats_list =
      uidsOf u.uid_stats_list := by
  unfold gpu_dvfs_metrics_uid_level_change
  dsimp only
  generalize u.uid_stats_list = acc
  induction u.js_uid_stats generalizing acc with
  | nil => rfl
  | cons slot rest ih =>
    cases slot with
    | none => simpa using ih acc
    | some uidv =>
      calc uidsOf (List.foldl _ (updateUid acc uidv
            (fun st => uidStatsLevelChange st level et)) rest)
          = uidsOf (updateUid acc uidv (fun st => uidStatsLevelChange st level et)) :=
            ih _
        _ = uidsOf acc :=
            uidsOf_updateUid uidv _ (fun st => uid_uidStatsLevelChange st level et) acc

/-- `gpu_dvfs_metrics_update` leaves the key list unchanged. -/
theorem uidsOf_metrics_update (s : PState) (u : UidTrackState)
    (next : Nat) (ps : Bool) (now : Nat) :
    uidsOf (gpu_dvfs_metrics_update s u next ps now).2.uid_stats_list =
      uidsOf u.uid_stats_list := by
  unfold gpu_dvfs_metrics_update
  dsimp only
  split_ifs <;> first
    | rfl
    | exact uidsOf_uid_level_change u s.level now

/-- `gpu_dvfs_set_new_level` leaves the key list unchanged. -/
theorem uidsOf_set_new_level (s : PState) (u : UidTrackState)
    (next : Nat) (now : Nat) :
    uidsOf (gpu_dvfs_set_new_level s u next now).2.1.uid_stats_list =
      uidsOf u.uid_stats_list := by
  unfold gpu_dvfs_set_new_level
  dsimp only
  split_ifs <;> exact uidsOf_metrics_update _ u next true now

/-- The control worker leaves the key list unchanged. -/
theorem uidsOf_control_worker (s : PState) (u : UidTrackState) (now : Nat) :
    uidsOf (gpu_dvfs_control_worker s u now).2.1.uid_stats_list =
      uidsOf u.uid_stats_list := by
  unfold gpu_dvfs_control_worker
  dsimp only
  split_ifs <;> first
    | rfl
    | exact uidsOf_set_new_level _ u _ now

/-- Any key of the list after a kctx insertion is the new UID or an old key. -/
theorem mem_uids_insert (n uidv : Nat) :
    ∀ (l : List GpuDvfsUidStats) (x : Nat),
      x ∈ uidsOf (gpu_dvfs_kctx_list_insert n uidv l) → x = uidv ∨ x ∈ uidsOf l := by
  intro l
  induction l with
  | nil =>
    intro x hx
    left
    simpa [gpu_dvfs_kctx_list_insert, uidsOf, newUidStats] using hx
  | cons e t ih =>
    intro x hx
    unfold gpu_dvfs_kctx_list_insert at hx
    by_cases h1 : e.uid = uidv
    · rw [if_pos h1] at hx
      rw [uidsOf_cons] at hx
      rcases List.mem_cons.mp hx with hx | hx
      · right
        rw [uidsOf_cons]
        exact List.mem_cons.mpr (Or.inl (by simpa using hx))
      · right
        rw [uidsOf_cons]
        exact List.mem_cons.mpr (Or.inr hx)
    · rw [if_neg h1] at hx
      by_cases h2 : uidv < e.uid
      · rw [if_pos h2] at hx
        rw [uidsOf_cons, uidsOf_cons] at hx
        rcases List.mem_cons.mp hx with hx | hx
        · exact Or.inl (by simpa [newUidStats] using hx)
        · exact Or.inr hx
      · rw [if_neg h2] at hx
        rw [uidsOf_cons] at hx
        rcases List.mem_cons.mp hx with hx | hx
        · right
          rw [uidsOf_cons]
          exact List.mem_cons.mpr (Or.inl hx)
        · rcases ih x hx with hx | hx
          · exact Or.inl hx
          · right
            rw [uidsOf_cons]
            exact List.mem_cons.mpr (Or.inr hx)

/-- A kctx insertion into a UID-sorted list yields a UID-sorted list. -/
theorem pairwise_uids_insert (n uidv : Nat) :
    ∀ l : List GpuDvfsUidStats, List.Pairwise (· < ·) (uidsOf l) →
      List.Pairwise (· < ·) (uidsOf (gpu_dvfs_kctx_list_insert n uidv l)) := by
  intro l
  induction l with
  | nil =>
    intro _
    simp [gpu_dvfs_kctx_list_insert, uidsOf, newUidStats]
  | cons e t ih =>
    intro hp
    rw [uidsOf_cons, List.pairwise_cons] at hp
    obtain ⟨he, ht⟩ := hp
    unfold gpu_dvfs_kctx_list_insert
    by_cases h1 : e.uid = uidv
    · rw [if_pos h1]
      rw [uidsOf_cons, List.pairwise_cons]
      exact ⟨he, ht⟩
    · rw [if_neg h1]
      by_cases h2 : uidv < e.uid
      · rw [if_pos h2]
        rw [uidsOf_cons, uidsOf_cons, List.pairwise_cons, List.pairwise_cons]
        refine ⟨?_, he, ht⟩
        intro b hb
        rcases List.mem_cons.mp hb with hb | hb
        · subst hb
          simpa [newUidStats] using h2
        · calc (newUidStats n uidv).uid = uidv := rfl
            _ < e.uid := h2
            _ < b := he b hb
      · rw [if_neg h2]
        rw [uidsOf_cons, List.pairwise_cons]
        constructor
        · intro b hb
          rcases mem_uids_insert n uidv t b hb with hb | hb
          · subst hb
            omega
          · exact he b hb
        · exact ih ht

/-- Inserting an already-present UID into a sorted list leaves the key list
unchanged: the existing block is reused. -/
theorem uids_insert_of_mem (n uidv : Nat) :
    ∀ l : List GpuDvfsUidStats, List.Pairwise (· < ·) (uidsOf l) →
      uidv ∈ uidsOf l →
      uidsOf (gpu_dvfs_kctx_list_insert n uidv l) = uidsOf l := by
  intro l
  induction l with
  | nil => intro _ hm; simp [uidsOf] at hm
  | cons e t ih =>
    intro hp hm
    rw [uidsOf_cons, List.pairwise_cons] at hp
    obtain ⟨he, ht⟩ := hp
    unfold gpu_dvfs_kctx_list_insert
    by_cases h1 : e.uid = uidv
    · rw [if_pos h1]
      rw [uidsOf_cons, uidsOf_cons]
    · rw [if_neg h1]
      rw [uidsOf_cons] at hm
      rcases List.mem_cons.mp hm with hm | hm
      · exact absurd hm.symm h1
      · have h2 : ¬ uidv < e.uid := by
          have := he uidv hm
          omega
        rw [if_neg h2]
        rw [uidsOf_cons, uidsOf_cons, ih ht hm]

/-- Inserting an unseen UID adds exactly that key (a permutation of cons). -/
theorem uids_insert_of_not_mem (n uidv : Nat) :
    ∀ l : List GpuDvfsUidStats, uidv ∉ uidsOf l →
      (uidsOf (gpu_dvfs_kctx_list_insert n uidv l)).Perm (uidv :: uidsOf l) := by
  intro l
  induction l with
  | nil =>
    intro _
    simp [gpu_dvfs_kctx_list_insert, uidsOf, newUidStats]
  | cons e t ih =>
    intro hm
    rw [uidsOf_cons] at hm
    have hne : e.uid ≠ uidv := fun hc => hm (List.mem_cons.mpr (Or.inl hc.symm))
    have hmt : uidv ∉ uidsOf t := fun hc => hm (List.mem_cons.mpr (Or.inr hc))
    unfold gpu_dvfs_kctx_list_insert
    rw [if_neg hne]
    by_cases h2 : uidv < e.uid
    · rw [if_pos h2]
      exact List.Perm.refl _
    · rw [if_neg h2]
      rw [uidsOf_cons, uidsOf_cons]
      exact ((ih hmt).cons e.uid).trans (List.Perm.swap uidv e.uid (uidsOf t))

/-- Every subsystem transition keeps the UID stats list sorted by UID. -/
theorem sorted_uids_step (a b : GpuSys) (hstep : GpuStep a b)
    (h : List.Pairwise (· < ·) (uidsOf a.2.uid_stats_list)) :
    List.Pairwise (· < ·) (uidsOf b.2.uid_stats_list) := by
  cases hstep with
  | util_report s u v => exact h
  | worker s u now => rw [uidsOf_control_worker]; exact h
  | power_on s u now hp =>
    show List.Pairwise (· < ·)
      (uidsOf (gpu_dvfs_metrics_update s u s.level true now).2.uid_stats_list)
    rw [uidsOf_metrics_update]
    exact h
  | power_off s u now hp =>
    show List.Pairwise (· < ·)
      (uidsOf (gpu_dvfs_metrics_update s u s.level false now).2.uid_stats_list)
    rw [uidsOf_metrics_update]
    exact h
  | clockdown_fire s u hp => exact h
  | scaling_max_write s u clock => exact h
  | scaling_min_write s u clock => exact h
  | tmu_notify s u ev => exact h
  | tis_refresh s u now => rw [uidsOf_metrics_update]; exact h
  | job_started s u uidv slot now =>
    show List.Pairwise (· < ·)
      (uidsOf (updateUid u.uid_stats_list uidv (fun st => uidStatsJobStart st now)))
    rw [uidsOf_updateUid uidv _ (fun st => uid_uidStatsJobStart st now)]
    exact h
  | job_ended s u uidv slot now =>
    show List.Pairwise (· < ·)
      (uidsOf (updateUid u.uid_stats_list uidv (fun st => uidStatsJobEnd st s.level now)))
    rw [uidsOf_updateUid uidv _ (fun st => uid_uidStatsJobEnd st s.level now)]
    exact h
  | kctx_created s u uidv => exact pairwise_uids_insert s.table_size uidv _ h
  | kctx_terminated s u uidv =>
    show List.Pairwise (· < ·)
      (uidsOf (updateUid u.uid_stats_list uidv
        (fun st => { st with active_kctx_count := st.active_kctx_count - 1 })))
    rw [uidsOf_updateUid uidv
      (fun st => { st with active_kctx_count := st.active_kctx_count - 1 })
      (fun st => rfl)]
    exact h

/-! ## Claim C9 -/

/-- Claim C9: in every reachable state the per-UID stats list is sorted in
strictly increasing UID order (hence holds at most one entry per UID); a
context-create event for an already-seen UID reuses the existing block (the
key list is unchanged), an unseen UID gets a fresh block inserted at its
sorted position (the key list is a sorted permutation of the old keys plus
the new UID), and a context-terminate event never removes an entry. -/
theorem C9_uid_list_sorted_persistent :
    (∀ sys : GpuSys, GpuReach sys →
      List.Pairwise (· < ·) (uidsOf sys.2.uid_stats_list) ∧
      (uidsOf sys.2.uid_stats_list).Nodup) ∧
    (∀ (l : List GpuDvfsUidStats) (n uidv : Nat),
      List.Pairwise (· < ·) (uidsOf l) → uidv ∈ uidsOf l →
      uidsOf (gpu_dvfs_kctx_list_insert n uidv l) = uidsOf l) ∧
    (∀ (l : List GpuDvfsUidStats) (n uidv : Nat),
      List.Pairwise (· < ·) (uidsOf l) → uidv ∉ uidsOf l →
      (uidsOf (gpu_dvfs_kctx_list_insert n uidv l)).Perm (uidv :: uidsOf l) ∧
      List.Pairwise (· < ·) (uidsOf (gpu_dvfs_kctx_list_insert n uidv l))) ∧
    (∀ (u : UidTrackState) (uidv : Nat),
      uidsOf (gpu_dvfs_kctx_term u uidv).uid_stats_list = uidsOf u.uid_stats_list) := by
  refine ⟨?_, ?_, ?_, ?_⟩
  · intro sys h
    have hs : List.Pairwise (· < ·) (uidsOf sys.2.uid_stats_list) := by
      induction h with
      | boot table boot_level hyst now0 nslots power0 h1 h2 => simp [uidsOf]
      | step s1 s2 h1 hstep ih => exact sorted_uids_step s1 s2 hstep ih
    exact ⟨hs, hs.imp Nat.ne_of_lt⟩
  · intro l n uidv hp hm
    exact uids_insert_of_mem n uidv l hp hm
  · intro l n uidv hp hm
    exact ⟨uids_insert_of_not_mem n uidv l hm, pairwise_uids_insert n uidv l hp⟩
  · intro u uidv
    exact uidsOf_updateUid uidv
      (fun st => { st with active_kctx_count := st.active_kctx_count - 1 })
      (fun st => rfl) u.uid_stats_list

/-- Witness for C9: insertion of seen UID 100 into the sorted demo list keeps
the keys; insertion of unseen UID 200 yields keys sorted as 100, 200, 300;
terminating a context removes nothing. -/
theorem C9_witness :
    (List.Pairwise (· < ·) (uidsOf c9List) ∧ (uidsOf c9List).Nodup) ∧
    uidsOf (gpu_dvfs_kctx_list_insert 3 100 c9List) = uidsOf c9List ∧
    ((uidsOf (gpu_dvfs_kctx_list_insert 3 200 c9List)).Perm (200 :: uidsOf c9List) ∧
      List.Pairwise (· < ·) (uidsOf (gpu_dvfs_kctx_list_insert 3 200 c9List))) ∧
    uidsOf (gpu_dvfs_kctx_term { uid_stats_list := c9List, js_uid_stats := [none] } 100).uid_stats_list =
      uidsOf c9List :=
  ⟨⟨by decide, by decide⟩,
   C9_uid_list_sorted_persistent.2.1 c9List 3 100 (by decide) (by decide),
   C9_uid_list_sorted_persistent.2.2.1 c9List 3 200 (by decide) (by decide),
   C9_uid_list_sorted_persistent.2.2.2 { uid_stats_list := c9List, js_uid_stats := [none] } 100⟩

/-! ## Claim C5 -/

/-- Claim C5: a job_end event on a UID with a running busy interval adds the
elapsed time since the interval start to that UID's bucket for the current
level, decrements the in-flight counter, and clears the interval-start
marker to zero exactly when the counter reaches zero (otherwise restarting
it at the current time); and in Scenario C (job from t=0 to t=10 at level 0,
level change to 1 at t=10, second job from t=10 to t=15) UID 1000
accumulates 10 time units at level 0 and 5 at level 1. -/
theorem C5_job_end_accounting :
    (∀ (st : GpuDvfsUidStats) (level now : Nat),
      1 ≤ st.atoms_in_flight → level < st.tis_stats.length →
      ((uidStatsJobEnd st level now).tis_stats.getD level oppMetrics0).time_total =
        (st.tis_stats.getD level oppMetrics0).time_total + (now - st.period_start) ∧
      (uidStatsJobEnd st level now).atoms_in_flight = st.atoms_in_flight - 1 ∧
      ((uidStatsJobEnd st level now).atoms_in_flight = 0 →
        (uidStatsJobEnd st level now).period_start = 0) ∧
      ((uidStatsJobEnd st level now).atoms_in_flight ≠ 0 →
        (uidStatsJobEnd st level now).period_start = now)) ∧
    ((c5U4.uid_stats_list.map
        (fun st => st.tis_stats.map (fun m => m.time_total))) = [[10, 5, 0]]) := by
  constructor
  · intro st level now h1 h2
    unfold uidStatsJobEnd
    dsimp only
    split_ifs with hz
    · refine ⟨?_, rfl, fun _ => rfl, fun hc => absurd hz hc⟩
      dsimp only
      rw [getD_set_self _ oppMetrics0 st.tis_stats level h2]
    · refine ⟨?_, rfl, fun hc => absurd hc hz, fun _ => rfl⟩
      dsimp only
      rw [getD_set_self _ oppMetrics0 st.tis_stats level h2]
  · decide

/-- Witness for C5: the first job of Scenario C ends at t=10 with one atom in
flight at level 0. -/
theorem C5_witness :
    (((uidStatsJobEnd (uidStatsJobStart c5UidX 0) 0 10).tis_stats.getD 0
          oppMetrics0).time_total =
        ((uidStatsJobStart c5UidX 0).tis_stats.getD 0 oppMetrics0).time_total +
          (10 - (uidStatsJobStart c5UidX 0).period_start) ∧
      (uidStatsJobEnd (uidStatsJobStart c5UidX 0) 0 10).atoms_in_flight =
        (uidStatsJobStart c5UidX 0).atoms_in_flight - 1 ∧
      ((uidStatsJobEnd (uidStatsJobStart c5UidX 0) 0 10).atoms_in_flight = 0 →
        (uidStatsJobEnd (uidStatsJobStart c5UidX 0) 0 10).period_start = 0) ∧
      ((uidStatsJobEnd (uidStatsJobStart c5UidX 0) 0 10).atoms_in_flight ≠ 0 →
        (uidStatsJobEnd (uidStatsJobStart c5UidX 0) 0 10).period_start = 10)) :=
  C5_job_end_accounting.1 (uidStatsJobStart c5UidX 0) 0 10 (by decide) (by decide)
